import Mathlib

/-!
Shallow embedding of the two React components of this repository:
`LeanRooster` (the Editable Surface, from
`src/packages/roosterjs-react-editor/lib/components/LeanRooster.tsx`) and
`RoosterCommandBar` (the Command Bar, from `src/unnamed/part_000`).

The external editor engine is modelled by its observable content; the
external `office-ui-fabric` widgets are modelled only where the spec
constrains them.  Callback invocations (mode-change callbacks, engine
construction, image-insert calls) are recorded as explicit event lists so
that claims about "no callback invoked" / "invoked exactly once" are
statable.
-/

namespace LeanRooster

/-- The `LeanRoosterModes` const enum: `View = 0`, `Edit = 1`. -/
inductive Mode where
  | view
  | edit
deriving DecidableEq, Repr

/-- The externally owned view-state object: `EditorViewState` with its
`content` markup string and `isDirty` flag. -/
structure EditorViewState where
  content : String
  isDirty : Bool
deriving DecidableEq, Repr

/-- The external editor engine (`roosterjs-editor-core` `Editor`),
modelled by its observable content, the only part of it the claims
mention.  `getContent()` is the `content` field. -/
structure Editor where
  content : String
deriving DecidableEq, Repr

/-- The props relevant to the mode-switching claims: `readonly` and the
veto callback `onBeforeModeChange` (returning `true` vetoes the switch).
The post-change callback `onAfterModeChange` is recorded as an event
rather than a function, since claims only ask whether it fires. -/
structure RoosterProps where
  readonly : Bool
  onBeforeModeChange : Mode → Bool

/-- The mutable component fields of `LeanRooster`: `_mode`, `_editor`,
`_initialContent` (the `dangerouslySetInnerHTML` value: `none` models the
JS `undefined` used when the initial view-state content is empty), the
view-state object, and a count of engine constructions (`new Editor`)
performed so far, used to state the single-instance claims. -/
structure RoosterState where
  mode : Mode
  editor : Option Editor
  initialContent : Option String
  viewState : EditorViewState
  constructCount : Nat
deriving DecidableEq, Repr

/-- Observable callback events of the Editable Surface. -/
inductive REvent where
  | beforeModeChange (m : Mode)
  | afterModeChange (m : Mode)
  | engineConstructed
  | blurCallback
deriving DecidableEq, Repr

/-- `_setInitialReactContent` together with the constructor: the initial
inner HTML is set iff the view-state content is non-empty (the source
checks `viewState.content != null && viewState.content.length > 0`);
mode starts as `View`, no engine exists. -/
def initialState (v : EditorViewState) : RoosterState :=
  { mode := Mode.view
    editor := none
    initialContent := if v.content.length > 0 then some v.content else none
    viewState := v
    constructCount := 0 }

/-- The default `_updateViewState` updater.  Source:
if `viewState.content !== content` then assign `content`, and unless
initializing set `isDirty = content !== originalContent` where
`originalContent` is `_initialContent.__html` or JS `null`.  A string is
never `===` to `null`, so the comparison is `initialContent ≠ some content`. -/
def updateViewState (initialContent : Option String) (v : EditorViewState)
    (content : String) (isInitializing : Bool) : EditorViewState :=
  if v.content ≠ content then
    let v1 : EditorViewState := { v with content := content }
    if ¬ isInitializing then
      { v1 with isDirty := decide (initialContent ≠ some content) }
    else v1
  else v

/-- `_updateContentToViewState`: flush the engine content into the
view state through the default updater; no-op when no engine exists. -/
def updateContentToViewState (s : RoosterState) (isInitializing : Bool) :
    RoosterState :=
  match s.editor with
  | some e =>
      { s with viewState :=
          updateViewState s.initialContent s.viewState e.content isInitializing }
  | none => s

/-- `_trySwithToEditMode` (spelling as in the source).  Returns the new
component state, the JS return value (`none` models `undefined`, from the
bare `return;` on veto), and the list of observable events.  The engine is
constructed from the content DIV, whose current markup is `domContent`. -/
def trySwithToEditMode (props : RoosterProps) (domContent : String)
    (s : RoosterState) : RoosterState × Option Bool × List REvent :=
  if s.mode = Mode.edit ∨ props.readonly then
    (s, some false, [])
  else if props.onBeforeModeChange Mode.edit then
    (s, none, [REvent.beforeModeChange Mode.edit])
  else
    let isInitializing := s.editor.isNone
    let s1 :=
      if isInitializing then
        { s with editor := some ⟨domContent⟩
                 constructCount := s.constructCount + 1 }
      else s
    let s2 := { s1 with mode := Mode.edit }
    let s3 := updateContentToViewState s2 isInitializing
    (s3, some true,
      REvent.beforeModeChange Mode.edit ::
        ((if isInitializing then [REvent.engineConstructed] else []) ++
          [REvent.afterModeChange Mode.edit]))

/-- `_trySwitchToViewMode`: flush content, then flip the mode.  The
engine instance is NOT released here (only `componentWillUnmount`
disposes it). -/
def trySwitchToViewMode (props : RoosterProps) (s : RoosterState) :
    RoosterState × Option Bool × List REvent :=
  if s.mode = Mode.view then
    (s, some false, [])
  else if props.onBeforeModeChange Mode.view then
    (s, some false, [REvent.beforeModeChange Mode.view])
  else
    let s1 := updateContentToViewState s false
    let s2 := { s1 with mode := Mode.view }
    (s2, some true,
      [REvent.beforeModeChange Mode.view, REvent.afterModeChange Mode.view])

/-- `_onBlur`: flush content to the view state (with `isInitializing`
left `undefined`, hence falsy), then invoke the `onBlur` prop. -/
def onBlur (s : RoosterState) : RoosterState × List REvent :=
  (updateContentToViewState s false, [REvent.blurCallback])

/-- `componentWillUnmount`: flush content, then dispose and null the
engine reference. -/
def componentWillUnmount (s : RoosterState) : RoosterState :=
  let s1 := updateContentToViewState s false
  { s1 with editor := none }

/-- External DOM editing while in Edit mode: the user changes the engine
content.  Not a component method; an environment action needed to reach
blur states where the engine content differs from the view state. -/
def setEditorContent (c : String) (s : RoosterState) : RoosterState :=
  match s.editor with
  | some _ => { s with editor := some ⟨c⟩ }
  | none => s

/-- One mode-switch call, by either switch entry point, with arbitrary
props and arbitrary current DIV markup. -/
inductive SwitchStep : RoosterState → RoosterState → Prop where
  | toEdit (props : RoosterProps) (domContent : String) (s : RoosterState) :
      SwitchStep s (trySwithToEditMode props domContent s).1
  | toView (props : RoosterProps) (s : RoosterState) :
      SwitchStep s (trySwitchToViewMode props s).1

/-- States reachable from the freshly constructed component by a sequence
of `switchToEdit` / `switchToView` calls. -/
def SwitchReachable (v : EditorViewState) (s : RoosterState) : Prop :=
  Relation.ReflTransGen SwitchStep (initialState v) s

/-- Props with no veto and not read-only, for concrete runs. -/
def noVetoProps : RoosterProps :=
  { readonly := false, onBeforeModeChange := fun _ => false }

/-- The inductive invariant maintained by the switch operations: Edit
mode requires an engine, and the number of `new Editor` constructions is
1 when an engine is held and 0 when none ever was. -/
def SwitchInv (s : RoosterState) : Prop :=
  (s.mode = Mode.edit → s.editor.isSome = true) ∧
    ((s.editor.isSome = true ∧ s.constructCount = 1) ∨
      (s.editor = none ∧ s.constructCount = 0))

end LeanRooster

namespace RoosterCommandBar

/-- A JavaScript value as it appears in a format-state object: the flags
are booleans or strings, and indexing a missing key yields `undefined`. -/
inductive JSVal where
  | vBool (b : Bool)
  | vStr (s : String)
  | vUndefined
deriving DecidableEq, Repr

/-- A format state: a flat JS object, modelled as an association list of
its own enumerable keys (unique in a JS object) to values. -/
abbrev FormatState := List (String × JSVal)

/-- JS property read `fs[k]`: the stored value, or `undefined` when the
key is absent. -/
def jsGet (fs : FormatState) (k : String) : JSVal :=
  match fs.lookup k with
  | some v => v
  | none => JSVal.vUndefined

/-- `_isFormatStateChanged`: iterate the keys of the CURRENT format state
(`for key in formatState`) and report `true` on the first key whose value
differs (`!==`) in the newly polled state. -/
def isFormatStateChanged (old new : FormatState) : Bool :=
  old.any (fun p => decide (p.2 ≠ jsGet new p.1))

/-- `_updateFormatState`: poll the format state from the editor (`none`
models a null editor, hence a null format state) and call `setState` only
when `_isFormatStateChanged` reports a difference.  Returns the format
state held after the call and whether `setState` was triggered. -/
def updateFormatState (polled : Option FormatState) (st : FormatState) :
    FormatState × Bool :=
  match polled with
  | none => (st, false)
  | some fs => if isFormatStateChanged st fs then (fs, true) else (st, false)

/-- Observable actions of `_fileInputOnChange` against the editor. -/
inductive FileAction where
  | uploadPlaceholder
  | insertNode
  | contentChanged
  | undoSnapshot
  | insertImage
deriving DecidableEq, Repr

/-- `_fileInputOnChange`: with a live (non-disposed) editor and a selected
file, either run the image-manager flow (upload placeholder, insert node,
content-changed event, undo snapshot) or the direct `insertImage` call,
then clear the input value.  Returns the action list and the input value
after the handler.  `file` is `files[0]` (`none` when no file selected). -/
def fileInputOnChange (editorLive : Bool) (hasImageManager : Bool)
    (file : Option String) (inputValue : String) : List FileAction × String :=
  if editorLive ∧ file.isSome then
    (if hasImageManager then
        [FileAction.uploadPlaceholder, FileAction.insertNode,
          FileAction.contentChanged, FileAction.undoSnapshot]
      else [FileAction.insertImage], "")
  else ([], inputValue)

/-- A command-bar item descriptor (`OutOfBoxCommandBarItem` /
`IContextualMenuItem`: the data fields the claims constrain): its string
key, display name and title, the `getChecked` / `getDisabled` accessors
over the format state, the computed `checked` / `disabled` flags, and
submenu items.  Click handlers and CSS class strings are elided as
non-data. -/
inductive CBItem where
  | mk (key : String) (name : Option String) (title : Option String)
      (checkedOf : Option (FormatState → Bool))
      (disabledOf : Option (FormatState → Bool))
      (checked : Option Bool) (disabled : Option Bool)
      (subItems : List CBItem)

/-- The `key` field of an item. -/
def CBItem.key : CBItem → String
  | .mk k _ _ _ _ _ _ _ => k

mutual

/-- The enrichment `_getMenuItem` applies to a non-null item: compute
`checked` / `disabled` from the accessors and the current format state,
override `name` from the caller-supplied strings table when a non-empty
string is present, default a null `title` from a truthy `name`, and
recursively enrich submenu items. -/
def enrichItem (strings : String → Option String) (fs : FormatState) :
    CBItem → CBItem
  | .mk key name title checkedOf disabledOf checked0 disabled0 subs =>
    let checked := match checkedOf with
      | some f => some (f fs)
      | none => checked0
    let disabled := match disabledOf with
      | some f => some (f fs)
      | none => disabled0
    let name2 := match strings key with
      | some s => if s.length > 0 then some s else name
      | none => name
    let title2 := match title with
      | some t => some t
      | none => match name2 with
        | some n => if n.length > 0 then some n else none
        | none => none
    CBItem.mk key name2 title2 checkedOf disabledOf checked disabled
      (enrichItems strings fs subs)

/-- Submenu enrichment: `item.subMenuProps.items.map(this._getMenuItem)`. -/
def enrichItems (strings : String → Option String) (fs : FormatState) :
    List CBItem → List CBItem
  | [] => []
  | i :: is => enrichItem strings fs i :: enrichItems strings fs is

end

/-- `_getMenuItem` at the top level: return `null` for a missing registry
entry, otherwise the enriched copy. -/
def getMenuItem (strings : String → Option String) (fs : FormatState) :
    Option CBItem → Option CBItem
  | none => none
  | some item => some (enrichItem strings fs item)

/-- `_createItems`: map each button key through the registry
(`OutOfBoxCommandBarItemMap[key]`) and `_getMenuItem`, then filter out the
nulls (`filter(menuItem => !!menuItem)`). -/
def createItems (strings : String → Option String) (fs : FormatState)
    (registry : String → Option CBItem) (buttonKeys : List String) :
    List CBItem :=
  (buttonKeys.map (fun k => getMenuItem strings fs (registry k))).filterMap id

/-- Modelled from the spec: the `office-ui-fabric` `Async` helper (not in
this repository) that backs `_updateFormatStateDebounced`.  Per the spec,
the debounce collapses refresh requests into one timer callback, and
`dispose()` cancels pending timers so an in-flight callback after disposal
must no-op. -/
structure AsyncState where
  disposed : Bool
  pendingDebounce : Bool
deriving DecidableEq, Repr

/-- The Command Bar component fields the lifecycle claims mention: the
current `state.formatState`, the `_async` reference (`none` after
`componentWillUnmount` nulls it; disposal also cancels the timer, so no
timer survives a `none` reference), and a count of `setState` calls. -/
structure CommandBarComp where
  formatState : FormatState
  asyncRef : Option AsyncState
  setStateCount : Nat

/-- `refreshFormatState`: request a debounced format-state refresh.
Modelled from the spec for the `Async` part: a disposed helper no-ops;
otherwise a debounce timer becomes pending. -/
def refreshFormatState (c : CommandBarComp) : CommandBarComp :=
  match c.asyncRef with
  | some a =>
      if a.disposed then c
      else { c with asyncRef := some { a with pendingDebounce := true } }
  | none => c

/-- `componentWillUnmount` of the Command Bar: dispose the `Async` helper
(cancelling any pending debounce timer, per the spec) and null the
reference.  Plugin unregistration is elided as external. -/
def unmountCommandBar (c : CommandBarComp) : CommandBarComp :=
  match c.asyncRef with
  | some _ => { c with asyncRef := none }
  | none => c

/-- The debounce timer firing: only a pending, undisposed timer runs the
callback `() => this._updateFormatState()`, which may call `setState`;
after unmount the reference is gone and the timer was cancelled, so
nothing runs. -/
def debounceTimerFire (polled : Option FormatState) (c : CommandBarComp) :
    CommandBarComp :=
  match c.asyncRef with
  | none => c
  | some a =>
      if a.disposed ∨ ¬ a.pendingDebounce then c
      else
        let r := updateFormatState polled c.formatState
        { c with
            formatState := r.1
            setStateCount := c.setStateCount + (if r.2 then 1 else 0)
            asyncRef := some { a with pendingDebounce := false } }

end RoosterCommandBar

namespace LeanRooster

/-- Helper: flushing content never touches the engine reference. -/
theorem updateContentToViewState_editor (s : RoosterState) (b : Bool) :
    (updateContentToViewState s b).editor = s.editor := by
  unfold updateContentToViewState
  split <;> rfl

/-- Helper: flushing content never touches the mode. -/
theorem updateContentToViewState_mode (s : RoosterState) (b : Bool) :
    (updateContentToViewState s b).mode = s.mode := by
  unfold updateContentToViewState
  split <;> rfl

/-- Helper: flushing content never touches the construction count. -/
theorem updateContentToViewState_constructCount (s : RoosterState) (b : Bool) :
    (updateContentToViewState s b).constructCount = s.constructCount := by
  unfold updateContentToViewState
  split <;> rfl

/-- C5: switching to Edit mode when already editing, or while read-only,
is a complete no-op: the state is returned unchanged, no callback fires,
and the call returns `false`. -/
theorem leanRooster_edit_switch_noop (props : RoosterProps) (domContent : String)
    (s : RoosterState) (h : s.mode = Mode.edit ∨ props.readonly = true) :
    trySwithToEditMode props domContent s = (s, some false, []) := by
  unfold trySwithToEditMode
  rw [if_pos h]

/-- Witness for C5 with a read-only surface. -/
theorem leanRooster_edit_switch_noop_witness :
    trySwithToEditMode ⟨true, fun _ => false⟩ "a" (initialState ⟨"", false⟩) =
      (initialState ⟨"", false⟩, some false, []) :=
  leanRooster_edit_switch_noop ⟨true, fun _ => false⟩ "a" (initialState ⟨"", false⟩)
    (Or.inr rfl)

/-- C6: when `onBeforeModeChange` vetoes a switch (returns `true`), the
mode is not flipped, no engine is constructed, the after-change callback
does not fire, and the call returns `undefined` (Edit direction,
modelled `none`) or `false` (View direction). -/
theorem leanRooster_veto_blocks_switch (props : RoosterProps)
    (domContent : String) (s : RoosterState) :
    (s.mode = Mode.view → props.readonly = false →
        props.onBeforeModeChange Mode.edit = true →
        trySwithToEditMode props domContent s =
          (s, none, [REvent.beforeModeChange Mode.edit])) ∧
      (s.mode = Mode.edit → props.onBeforeModeChange Mode.view = true →
        trySwitchToViewMode props s =
          (s, some false, [REvent.beforeModeChange Mode.view])) := by
  constructor
  · intro hv hro hveto
    unfold trySwithToEditMode
    rw [if_neg (by simp [hv, hro]), if_pos hveto]
  · intro he hveto
    unfold trySwitchToViewMode
    rw [if_neg (by simp [he]), if_pos hveto]

/-- Witness for C6: a vetoing callback blocks both switch directions. -/
theorem leanRooster_veto_blocks_switch_witness :
    (trySwithToEditMode ⟨false, fun _ => true⟩ "a" (initialState ⟨"", false⟩) =
        (initialState ⟨"", false⟩, none, [REvent.beforeModeChange Mode.edit])) ∧
      (trySwitchToViewMode ⟨false, fun _ => true⟩
          { mode := Mode.edit, editor := some ⟨"a"⟩, initialContent := none,
            viewState := ⟨"a", false⟩, constructCount := 1 } =
        ({ mode := Mode.edit, editor := some ⟨"a"⟩, initialContent := none,
            viewState := ⟨"a", false⟩, constructCount := 1 }, some false,
          [REvent.beforeModeChange Mode.view])) :=
  ⟨(leanRooster_veto_blocks_switch ⟨false, fun _ => true⟩ "a"
      (initialState ⟨"", false⟩)).1 rfl rfl rfl,
    (leanRooster_veto_blocks_switch ⟨false, fun _ => true⟩ "a"
      { mode := Mode.edit, editor := some ⟨"a"⟩, initialContent := none,
        viewState := ⟨"a", false⟩, constructCount := 1 }).2 rfl rfl⟩

/-- C10: blur and unmount with no engine ever constructed leave the
externally owned view-state object (content and dirty flag) unchanged. -/
theorem leanRooster_no_engine_preserves_view_state (s : RoosterState)
    (h : s.editor = none) :
    (onBlur s).1.viewState = s.viewState ∧
      (componentWillUnmount s).viewState = s.viewState := by
  unfold onBlur componentWillUnmount updateContentToViewState
  rw [h]
  exact ⟨rfl, rfl⟩

/-- Witness for C10 on a freshly constructed surface. -/
theorem leanRooster_no_engine_preserves_view_state_witness :
    (onBlur (initialState ⟨"hello", true⟩)).1.viewState =
        (initialState ⟨"hello", true⟩).viewState ∧
      (componentWillUnmount (initialState ⟨"hello", true⟩)).viewState =
        (initialState ⟨"hello", true⟩).viewState :=
  leanRooster_no_engine_preserves_view_state (initialState ⟨"hello", true⟩) rfl

/-- Helper: the invariant holds in the freshly constructed component. -/
theorem switchInv_initial (v : EditorViewState) : SwitchInv (initialState v) := by
  refine ⟨fun h => ?_, Or.inr ⟨rfl, rfl⟩⟩
  simp [initialState] at h

/-- Helper: each switch call preserves the invariant. -/
theorem switchInv_step {s t : RoosterState} (hs : SwitchInv s)
    (h : SwitchStep s t) : SwitchInv t := by
  cases h with
  | toEdit props domContent s =>
    unfold trySwithToEditMode
    by_cases h1 : s.mode = Mode.edit ∨ props.readonly = true
    · rw [if_pos h1]
      exact hs
    · rw [if_neg h1]
      by_cases h2 : props.onBeforeModeChange Mode.edit = true
      · rw [if_pos h2]
        exact hs
      · rw [if_neg h2]
        cases he : s.editor with
        | none =>
          have hc0 : s.constructCount = 0 := by
            rcases hs.2 with hc | hc
            · rw [he] at hc
              simp at hc
            · exact hc.2
          refine ⟨fun _ => ?_, Or.inl ⟨?_, ?_⟩⟩
          · simp [updateContentToViewState_editor, he]
          · simp [updateContentToViewState_editor, he]
          · simp [updateContentToViewState_constructCount, he, hc0]
        | some e =>
          have hc1 : s.constructCount = 1 := by
            rcases hs.2 with hc | hc
            · exact hc.2
            · rw [he] at hc
              simp at hc
          refine ⟨fun _ => ?_, Or.inl ⟨?_, ?_⟩⟩
          · simp [updateContentToViewState_editor, he]
          · simp [updateContentToViewState_editor, he]
          · simp [updateContentToViewState_constructCount, he, hc1]
  | toView props s =>
    unfold trySwitchToViewMode
    by_cases h1 : s.mode = Mode.view
    · rw [if_pos h1]
      exact hs
    · rw [if_neg h1]
      by_cases h2 : props.onBeforeModeChange Mode.view = true
      · rw [if_pos h2]
        exact hs
      · rw [if_neg h2]
        refine ⟨fun hm => ?_, ?_⟩
        · simp at hm
        · rcases hs.2 with hc | hc
          · exact Or.inl ⟨by simp [updateContentToViewState_editor, hc.1],
              by simp [updateContentToViewState_constructCount, hc.2]⟩
          · exact Or.inr ⟨by simp [updateContentToViewState_editor, hc.1],
              by simp [updateContentToViewState_constructCount, hc.2]⟩

/-- Helper: the invariant holds in every switch-reachable state. -/
theorem switchInv_reachable {v : EditorViewState} {s : RoosterState}
    (h : SwitchReachable v s) : SwitchInv s := by
  induction h with
  | refl => exact switchInv_initial v
  | tail _ hstep ih => exact switchInv_step ih hstep

/-- C1 counterexample: switching to Edit and then back to View is a
switch-reachable run that ends in View mode while the engine instance is
still held (the View switch flushes content but never disposes the
engine; only unmount does), refuting "mode is Edit iff an engine
instance exists". -/
theorem leanRooster_view_mode_retains_engine_counterexample :
    SwitchReachable ⟨"a", false⟩
        (trySwitchToViewMode noVetoProps
          (trySwithToEditMode noVetoProps "a" (initialState ⟨"a", false⟩)).1).1 ∧
      (trySwitchToViewMode noVetoProps
          (trySwithToEditMode noVetoProps "a" (initialState ⟨"a", false⟩)).1).1.mode
        = Mode.view ∧
      (trySwitchToViewMode noVetoProps
          (trySwithToEditMode noVetoProps "a" (initialState ⟨"a", false⟩)).1).1.editor
        ≠ none := by
  refine ⟨?_, by decide, by decide⟩
  exact Relation.ReflTransGen.tail
    (Relation.ReflTransGen.tail Relation.ReflTransGen.refl
      (SwitchStep.toEdit noVetoProps "a" (initialState ⟨"a", false⟩)))
    (SwitchStep.toView noVetoProps
      (trySwithToEditMode noVetoProps "a" (initialState ⟨"a", false⟩)).1)

/-- C1 as amended: in every switch-reachable state, Edit mode implies an
engine instance exists.  The converse direction of the original claim is
false: after a switch back to View the engine is retained until unmount
(see the counterexample). -/
theorem leanRooster_edit_mode_has_engine (v : EditorViewState)
    (s : RoosterState) (h : SwitchReachable v s) :
    s.mode = Mode.edit → s.editor.isSome = true :=
  (switchInv_reachable h).1

/-- Witness for the amended C1 after one successful Edit switch. -/
theorem leanRooster_edit_mode_has_engine_witness :
    (trySwithToEditMode noVetoProps "a" (initialState ⟨"a", false⟩)).1.editor.isSome
      = true :=
  leanRooster_edit_mode_has_engine ⟨"a", false⟩
    (trySwithToEditMode noVetoProps "a" (initialState ⟨"a", false⟩)).1
    (Relation.ReflTransGen.single
      (SwitchStep.toEdit noVetoProps "a" (initialState ⟨"a", false⟩)))
    (by decide)

/-- C4: across every sequence of switch calls, at most one engine
construction ever happens: the engine is built only when none exists,
and it survives switches to View, so repeated Edit switches reuse it. -/
theorem leanRooster_at_most_one_engine_construction (v : EditorViewState)
    (s : RoosterState) (h : SwitchReachable v s) : s.constructCount ≤ 1 := by
  rcases (switchInv_reachable h).2 with hc | hc
  · exact le_of_eq hc.2
  · exact hc.2 ▸ Nat.zero_le 1

/-- Witness for C4: Edit, View, Edit again still constructs one engine. -/
theorem leanRooster_at_most_one_engine_construction_witness :
    (trySwithToEditMode noVetoProps "b"
        (trySwitchToViewMode noVetoProps
          (trySwithToEditMode noVetoProps "a"
            (initialState ⟨"a", false⟩)).1).1).1.constructCount ≤ 1 :=
  leanRooster_at_most_one_engine_construction ⟨"a", false⟩ _
    (Relation.ReflTransGen.tail
      (Relation.ReflTransGen.tail
        (Relation.ReflTransGen.single
          (SwitchStep.toEdit noVetoProps "a" (initialState ⟨"a", false⟩)))
        (SwitchStep.toView noVetoProps
          (trySwithToEditMode noVetoProps "a" (initialState ⟨"a", false⟩)).1))
      (SwitchStep.toEdit noVetoProps "b"
        (trySwitchToViewMode noVetoProps
          (trySwithToEditMode noVetoProps "a"
            (initialState ⟨"a", false⟩)).1).1))

/-- C2 counterexample: the surface starts with empty content (so it was
first rendered with empty markup and `_initialContent` is `undefined`),
the user types "x", blurs, deletes everything, and blurs again.  At the
final flush the engine content `""` equals the original initial markup,
yet the code compares against JS `null` and sets `isDirty = true`, so the
claimed "isDirty iff content differs from the original initial markup"
fails. -/
theorem leanRooster_blur_dirty_iff_counterexample :
    (setEditorContent ""
        (onBlur (setEditorContent "x"
          (trySwithToEditMode noVetoProps "" (initialState ⟨"", false⟩)).1)).1).editor
        = some ⟨""⟩ ∧
      ¬ (((onBlur (setEditorContent ""
            (onBlur (setEditorContent "x"
              (trySwithToEditMode noVetoProps "" (initialState ⟨"", false⟩)).1)).1)).1.viewState.isDirty
            = true) ↔
          "" ≠ (setEditorContent ""
            (onBlur (setEditorContent "x"
              (trySwithToEditMode noVetoProps "" (initialState ⟨"", false⟩)).1)).1).initialContent.getD "") := by
  decide

/-- C2 as amended: a blur flush with engine content `c` leaves the view
state untouched when `c` equals the stored content; otherwise it writes
`c` and sets `isDirty` to true iff the stored initial markup is absent
(empty initial content, compared as JS `null`) or differs from `c`. -/
theorem leanRooster_blur_flush_updates (s : RoosterState) (e : Editor)
    (he : s.editor = some e) :
    (s.viewState.content = e.content → (onBlur s).1.viewState = s.viewState) ∧
      (s.viewState.content ≠ e.content →
        (onBlur s).1.viewState.content = e.content ∧
          ((onBlur s).1.viewState.isDirty = true ↔
            s.initialContent ≠ some e.content)) := by
  constructor
  · intro hc
    simp [onBlur, updateContentToViewState, he, updateViewState, hc]
  · intro hc
    simp [onBlur, updateContentToViewState, he, updateViewState, hc]

/-- Witness for the amended C2: flushing "b" over stored "a" with initial
markup "a" writes "b" and marks dirty. -/
theorem leanRooster_blur_flush_updates_witness :
    (onBlur ⟨Mode.edit, some ⟨"b"⟩, some "a", ⟨"a", false⟩, 1⟩).1.viewState.content = "b" ∧
      ((onBlur ⟨Mode.edit, some ⟨"b"⟩, some "a", ⟨"a", false⟩, 1⟩).1.viewState.isDirty = true ↔
        (⟨Mode.edit, some ⟨"b"⟩, some "a", ⟨"a", false⟩, 1⟩ : RoosterState).initialContent ≠ some "b") :=
  (leanRooster_blur_flush_updates ⟨Mode.edit, some ⟨"b"⟩, some "a", ⟨"a", false⟩, 1⟩
      ⟨"b"⟩ rfl).2 (by decide)

end LeanRooster

namespace RoosterCommandBar

/-- Helper: in an object with unique keys, looking up a present key
yields its stored value. -/
theorem lookup_eq_of_mem_of_nodupKeys {l : List (String × JSVal)} {k : String}
    {v : JSVal} (hm : (k, v) ∈ l) (hn : (l.map Prod.fst).Nodup) :
    l.lookup k = some v := by
  induction l with
  | nil => cases hm
  | cons a l ih =>
    rcases List.mem_cons.mp hm with h | h
    · subst h
      simp [List.lookup]
    · have hk : (k == a.1) = false := by
        refine beq_false_of_ne fun he => ?_
        exact (List.nodup_cons.mp hn).1 (he ▸ List.mem_map_of_mem Prod.fst h)
      cases a with
      | mk ka va =>
        simp only [List.lookup, hk]
        exact ih h (List.nodup_cons.mp hn).2

/-- Helper: looking up an absent key yields nothing. -/
theorem lookup_eq_none_of_not_mem_keys {l : List (String × JSVal)} {k : String}
    (h : k ∉ l.map Prod.fst) : l.lookup k = none := by
  induction l with
  | nil => rfl
  | cons a l ih =>
    simp only [List.map_cons, List.mem_cons, not_or] at h
    have hk : (k == a.1) = false := beq_false_of_ne h.1
    cases a with
    | mk ka va =>
      simp only [List.lookup, hk]
      exact ih h.2

/-- C3: comparing the current format state to a freshly polled one over
the shared flat key set, the Command Bar triggers a `setState` (and hence
a comparison-driven re-render) exactly when some key's value differs;
equal states trigger none. -/
theorem commandBar_rerender_iff_key_differs (old new : FormatState)
    (hn : (old.map Prod.fst).Nodup)
    (hkeys : old.map Prod.fst = new.map Prod.fst) :
    (updateFormatState (some new) old).2 = true ↔
      ∃ k, jsGet old k ≠ jsGet new k := by
  have h2 : (updateFormatState (some new) old).2 = isFormatStateChanged old new := by
    by_cases hch : isFormatStateChanged old new <;>
      simp [updateFormatState, hch]
  rw [h2]
  simp only [isFormatStateChanged, List.any_eq_true, decide_eq_true_eq]
  constructor
  · rintro ⟨⟨pk, pv⟩, hp, hne⟩
    refine ⟨pk, ?_⟩
    rw [show jsGet old pk = pv from by
      simp [jsGet, lookup_eq_of_mem_of_nodupKeys hp hn]]
    exact hne
  · rintro ⟨k, hne⟩
    by_cases hmem : k ∈ old.map Prod.fst
    · rcases List.mem_map.mp hmem with ⟨⟨pk, pv⟩, hp, hpk⟩
      dsimp only at hpk
      subst hpk
      refine ⟨(pk, pv), hp, ?_⟩
      dsimp only
      rw [show jsGet old pk = pv from by
        simp [jsGet, lookup_eq_of_mem_of_nodupKeys hp hn]] at hne
      exact hne
    · exfalso
      apply hne
      rw [show jsGet old k = JSVal.vUndefined from by
          simp [jsGet, lookup_eq_none_of_not_mem_keys hmem],
        show jsGet new k = JSVal.vUndefined from by
          simp [jsGet, lookup_eq_none_of_not_mem_keys (hkeys ▸ hmem)]]

/-- Witness for C3: polling `bold := true` over `bold := false` (with a
`link` key unchanged) triggers a `setState` exactly when a key differs. -/
theorem commandBar_rerender_iff_key_differs_witness :
    (updateFormatState
        (some [("bold", JSVal.vBool true), ("link", JSVal.vBool false)])
        [("bold", JSVal.vBool false), ("link", JSVal.vBool false)]).2 = true ↔
      ∃ k, jsGet [("bold", JSVal.vBool false), ("link", JSVal.vBool false)] k ≠
        jsGet [("bold", JSVal.vBool true), ("link", JSVal.vBool false)] k :=
  commandBar_rerender_iff_key_differs
    [("bold", JSVal.vBool false), ("link", JSVal.vBool false)]
    [("bold", JSVal.vBool true), ("link", JSVal.vBool false)]
    (by decide) (by decide)

/-- C7: with a live (non-disposed) editor and a selected file, the
change handler runs the direct `insertImage` call exactly once when no
image manager is configured, and the upload-placeholder flow (placeholder
upload, node insertion, content-changed event, undo snapshot) exactly
once when one is; in both cases the input value is cleared. -/
theorem commandBar_file_input_insert_paths (f : String) (inputValue : String) :
    fileInputOnChange true false (some f) inputValue =
        ([FileAction.insertImage], "") ∧
      fileInputOnChange true true (some f) inputValue =
        ([FileAction.uploadPlaceholder, FileAction.insertNode,
          FileAction.contentChanged, FileAction.undoSnapshot], "") := by
  constructor <;> simp [fileInputOnChange]

/-- Helper: enrichment preserves an item's key. -/
theorem enrichItem_key (strings : String → Option String) (fs : FormatState)
    (i : CBItem) : (enrichItem strings fs i).key = i.key := by
  cases i with
  | mk k name title cOf dOf ch dis subs => rfl

/-- Helper: `_createItems` equals mapping the registry over the keys and
enriching the hits, dropping the misses. -/
theorem createItems_eq_filterMap (strings : String → Option String)
    (fs : FormatState) (registry : String → Option CBItem) (keys : List String) :
    createItems strings fs registry keys =
      (keys.filterMap registry).map (enrichItem strings fs) := by
  unfold createItems
  induction keys with
  | nil => rfl
  | cons k ks ih =>
    simp only [getMenuItem] at ih ⊢
    cases hr : registry k with
    | none =>
      simp only [List.map_cons, List.filterMap_cons, hr, id_eq]
      exact ih
    | some i =>
      simp only [List.map_cons, List.filterMap_cons, hr, id_eq]
      rw [ih]

/-- C8: for a registry whose entries carry their own lookup key, the
rendered item list is exactly the enrichment of the known keys' items, in
the caller-given order, and its key sequence is the caller's list with
every unknown key silently omitted. -/
theorem commandBar_items_known_keys_in_order (strings : String → Option String)
    (fs : FormatState) (registry : String → Option CBItem) (keys : List String)
    (hreg : ∀ k i, registry k = some i → CBItem.key i = k) :
    createItems strings fs registry keys =
        (keys.filterMap registry).map (enrichItem strings fs) ∧
      (createItems strings fs registry keys).map CBItem.key =
        keys.filter (fun k => (registry k).isSome) := by
  refine ⟨createItems_eq_filterMap strings fs registry keys, ?_⟩
  rw [createItems_eq_filterMap]
  induction keys with
  | nil => rfl
  | cons k ks ih =>
    cases hr : registry k with
    | none => simpa [List.filterMap_cons, hr, List.filter_cons] using ih
    | some i =>
      have hkey := hreg k i hr
      simp [List.filterMap_cons, hr, List.filter_cons, enrichItem_key, hkey, ih]

/-- Witness for C8: a two-key list with one unknown key renders only the
known item, in order, with the unknown key omitted. -/
theorem commandBar_items_known_keys_in_order_witness :
    createItems (fun _ => none) []
        (fun k => if k = "bold" then
          some (CBItem.mk "bold" (some "Bold") none none none none none [])
         else none) ["bold", "strike"] =
        ((["bold", "strike"].filterMap
            (fun k => if k = "bold" then
              some (CBItem.mk "bold" (some "Bold") none none none none none [])
             else none)).map (enrichItem (fun _ => none) [])) ∧
      (createItems (fun _ => none) []
          (fun k => if k = "bold" then
            some (CBItem.mk "bold" (some "Bold") none none none none none [])
           else none) ["bold", "strike"]).map CBItem.key =
        ["bold", "strike"].filter
          (fun k => (if k = "bold" then
            some (CBItem.mk "bold" (some "Bold") none none none none none [])
           else none).isSome) :=
  commandBar_items_known_keys_in_order (fun _ => none) []
    (fun k => if k = "bold" then
      some (CBItem.mk "bold" (some "Bold") none none none none none [])
     else none) ["bold", "strike"]
    (by
      intro k i h
      dsimp only at h
      by_cases hk : k = "bold"
      · rw [if_pos hk] at h
        injection h with h2
        subst h2
        exact hk.symm
      · rw [if_neg hk] at h
        exact Option.noConfusion h)

/-- C9: unmounting the Command Bar disposes the debounce helper and
nulls its reference, so a debounce timer firing afterwards changes
nothing: in particular no `setState` happens after unmount (and the
handler, being total here as in the guarded source, does not throw). -/
theorem commandBar_unmount_cancels_debounce (polled : Option FormatState)
    (c : CommandBarComp) :
    debounceTimerFire polled (unmountCommandBar c) = unmountCommandBar c := by
  cases hc : c.asyncRef <;>
    simp [unmountCommandBar, debounceTimerFire, hc]

end RoosterCommandBar
